import Mathlib

/-!
Verification development for the runaway-coach analysis pipeline.

Shallow embedding of the quantitative estimators and the workflow node
pattern of the repository:

* `src/core/agents/training_load_agent.py`   (TrainingLoadAgent)
* `src/core/agents/vo2max_estimation_agent.py` (VO2MaxEstimationAgent)
* `src/core/agents/weather_context_agent.py` (WeatherContextAgent)
* `src/core/workflows/enhanced_runner_analysis_workflow.py` and
  `src/core/workflows/runner_analysis_workflow.py` (LangGraph workflows)

Machine floats of the Python source are modelled as exact rationals `ℚ`
(the standard idealization); Python's `round(x, n)` is modelled as exact
round-half-to-even at `n` decimals.  Python timestamps (`datetime`) are
modelled as rational day counts; `timedelta(days = d)` is subtraction of
`d`.  Optional / missing dict keys are `Option ℚ`, with Python truthiness
(`None` and `0` falsy) made explicit where the source branches on it.
Prose fields (recommendation strings, daily plans) that no numeric claim
depends on are elided from the embedded result records.
-/

set_option maxHeartbeats 1000000

namespace Runaway

/-- Floor of a rational, written so that it evaluates by kernel reduction. -/
def ratFloor (q : ℚ) : ℤ := q.num / (q.den : ℤ)

/-- Python's `round` to an integer: round half to even (banker's rounding). -/
def roundHalfEven (q : ℚ) : ℤ :=
  let f := ratFloor q
  let r := q - f
  if r < 1/2 then f
  else if r > 1/2 then f + 1
  else if f % 2 = 0 then f else f + 1

/-- Python's `round(x, 1)`. -/
def round1 (q : ℚ) : ℚ := (roundHalfEven (q * 10) : ℚ) / 10

/-- Python's `round(x, 2)`. -/
def round2 (q : ℚ) : ℚ := (roundHalfEven (q * 100) : ℚ) / 100

/-- Truthiness of an optional numeric value in Python: `None` and `0` are falsy. -/
def otruthy (x : Option ℚ) : Bool :=
  match x with
  | none => false
  | some v => v != 0

/-- One activity record as consumed by the estimators (the dict keys the
source reads, typed; spec §3 `ActivitySample`). -/
structure Activity where
  distance : Option ℚ
  elapsedTime : Option ℚ
  movingTime : Option ℚ
  averageHeartRate : Option ℚ
  maxHeartRate : Option ℚ
  averageSpeed : Option ℚ
  averageWatts : Option ℚ
  activityDate : Option ℚ
  startLatitude : Option ℚ
  startLongitude : Option ℚ
  averageTemperature : Option ℚ
  humidity : Option ℚ
deriving DecidableEq, Repr

/-! ## Training Load Agent (`training_load_agent.py`) -/

inductive RecoveryStatus where
  | well_recovered | adequate | fatigued | overreaching | overtrained
deriving DecidableEq, Repr

inductive TrainingLoadTrend where
  | ramping_up | steady | tapering | detraining
deriving DecidableEq, Repr

/-- Source `TrainingLoadAgent._calculate_intensity_factor`.  The HR branch needs
both `average_heart_rate` and `max_heart_rate` truthy; the speed branch
needs a truthy `average_speed` and a supplied threshold pace (the analysis
path always passes `None` for the threshold). -/
def calculate_intensity_factor (a : Activity) (estimatedThresholdPace : Option ℚ) : ℚ :=
  if otruthy a.averageHeartRate && otruthy a.maxHeartRate then
    let avgHr := a.averageHeartRate.getD 0
    let maxHr := a.maxHeartRate.getD 0
    let hrPercentage := if maxHr > 0 then avgHr / maxHr else 7/10
    if hrPercentage < 0.65 then 0.55
    else if hrPercentage < 0.75 then 0.70
    else if hrPercentage < 0.85 then 0.85
    else 0.95
  else if otruthy a.averageSpeed && otruthy estimatedThresholdPace then
    let avgSpeed := a.averageSpeed.getD 0
    if avgSpeed > 0 then
      -- normalized_pace = 1 / avg_speed; if_estimate = threshold / normalized_pace
      let ifEstimate := (estimatedThresholdPace.getD 0) / (1 / avgSpeed)
      max 0.5 (min 1.2 ifEstimate)
    else 0.70
  else 0.70

/-- Source `TrainingLoadAgent._calculate_tss`: `duration_hours = elapsed_time / 3600`,
`tss = duration_hours * IF^2 * 100`, rounded to one decimal.  The source reads
`activity.get("elapsed_time", 0)` (elapsed, not moving, time). -/
def calculate_tss (a : Activity) (intensityFactor : ℚ) : ℚ :=
  round1 ((a.elapsedTime.getD 0) / 3600 * intensityFactor ^ 2 * 100)

/-- Source `TrainingLoadAgent._calculate_load_by_period`: sum of TSS over activities
whose (present) date is at or after `referenceDate - days`, rounded to one
decimal.  A missing `activity_date` (falsy `None`) excludes the activity. -/
def calculate_load_by_period (activities : List Activity) (days : ℚ)
    (referenceDate : ℚ) : ℚ :=
  round1 (((activities.filter (fun a =>
    match a.activityDate with
    | some d => decide (d ≥ referenceDate - days)
    | none => false)).map (fun a =>
      calculate_tss a (calculate_intensity_factor a none))).sum)

/-- Source `TrainingLoadAgent._calculate_acwr`: `0` when the chronic load is `0`,
else `round(acute / chronic, 2)`. -/
def calculate_acwr (acuteLoad chronicLoad : ℚ) : ℚ :=
  if chronicLoad = 0 then 0
  else round2 (acuteLoad / chronicLoad)

/-- Source `TrainingLoadAgent._assess_injury_risk`. -/
def assess_injury_risk (acwr : ℚ) : String :=
  if acwr < 0.8 then "low"
  else if acwr ≤ 1.3 then "low"
  else if acwr ≤ 1.5 then "moderate"
  else if acwr ≤ 1.8 then "high"
  else "very_high"

/-- Source `TrainingLoadAgent._determine_recovery_status` (the `recent_days`
argument is unused by the source as well). -/
def determine_recovery_status (acwr weeklyTss : ℚ) (recentDays : ℕ) : RecoveryStatus :=
  let _ := recentDays
  if acwr > 1.8 then .overtrained
  else if acwr > 1.5 ∧ weeklyTss > 500 then .overreaching
  else if acwr > 1.3 ∨ weeklyTss > 700 then .fatigued
  else if acwr < 0.8 ∨ weeklyTss < 200 then .well_recovered
  else .adequate

/-- Source `TrainingLoadAgent._determine_training_trend`. -/
def determine_training_trend (acuteLoad chronicLoad acwr : ℚ) : TrainingLoadTrend :=
  let _ := acuteLoad
  if acwr > 1.2 then .ramping_up
  else if acwr < 0.8 then
    (if chronicLoad < 200 then .detraining else .tapering)
  else .steady

/-- Source `TrainingLoadAgent._assess_fitness_trend`. -/
def assess_fitness_trend (chronicLoad load4WeeksAgo : ℚ) : String :=
  if load4WeeksAgo = 0 then "insufficient_data"
  else
    let changePercent := (chronicLoad - load4WeeksAgo) / load4WeeksAgo * 100
    if changePercent > 10 then "improving"
    else if changePercent < -10 then "declining"
    else "maintaining"

/-- Source `TrainingLoadAgent._is_recent_activity`. -/
def is_recent_activity (a : Activity) (days referenceDate : ℚ) : Bool :=
  match a.activityDate with
  | some d => decide (d ≥ referenceDate - days)
  | none => false

/-- Source `TrainingLoadAnalysis` (prose recommendation fields elided). -/
structure TrainingLoadAnalysis where
  acute_load : ℚ
  chronic_load : ℚ
  acwr : ℚ
  weekly_tss : ℚ
  total_volume_km : ℚ
  recovery_status : RecoveryStatus
  injury_risk_level : String
  training_trend : TrainingLoadTrend
  analysis_date : ℚ
  fitness_trend : String
deriving DecidableEq, Repr

/-- Source `TrainingLoadAgent._create_fallback_analysis` (numeric and enum fields). -/
def create_fallback_analysis (now : ℚ) : TrainingLoadAnalysis :=
  { acute_load := 0
    chronic_load := 0
    acwr := 0
    weekly_tss := 0
    total_volume_km := 0
    recovery_status := .well_recovered
    injury_risk_level := "low"
    training_trend := .steady
    analysis_date := now
    fitness_trend := "insufficient_data" }

/-- Source `TrainingLoadAgent.analyze_training_load`.  The source's reference date
is `datetime.now()`, sampled inside the call; it is the explicit `now`
parameter here. -/
def analyze_training_load (activities : List Activity) (now : ℚ) :
    TrainingLoadAnalysis :=
  if activities.isEmpty then create_fallback_analysis now
  else
    let referenceDate := now
    let acuteLoad := calculate_load_by_period activities 7 referenceDate
    let chronicLoad := calculate_load_by_period activities 28 referenceDate
    let load4WeeksAgo := calculate_load_by_period activities 28 (referenceDate - 28)
    let acwr := calculate_acwr acuteLoad chronicLoad
    let weeklyTss := calculate_load_by_period activities 7 referenceDate
    let recentActivities := activities.filter (fun a => is_recent_activity a 7 referenceDate)
    let totalVolumeKm := (recentActivities.map (fun a =>
      if otruthy a.distance then (a.distance.getD 0) / 1000 else 0)).sum
    { acute_load := acuteLoad
      chronic_load := chronicLoad
      acwr := acwr
      weekly_tss := weeklyTss
      total_volume_km := round1 totalVolumeKm
      recovery_status := determine_recovery_status acwr weeklyTss 7
      injury_risk_level := assess_injury_risk acwr
      training_trend := determine_training_trend acuteLoad chronicLoad acwr
      analysis_date := referenceDate
      fitness_trend := assess_fitness_trend chronicLoad load4WeeksAgo }

/-! ## VO2 Max Estimation Agent (`vo2max_estimation_agent.py`) -/

/-- The source's estimation-method tags.  Weighting uses
`2.0 if "race" in method else 1.0`; of the three tags only
`race_performance` contains `"race"`. -/
inductive EstimationMethod where
  | race_performance | power_data | heart_rate
deriving DecidableEq, Repr

/-- The clamp `max(20.0, min(85.0, x))` applied to every candidate. -/
def clampVo2 (x : ℚ) : ℚ := max 20 (min 85 x)

/-- Source `RACE_DISTANCES` in meters: 5K, 10K, Half Marathon, Marathon. -/
def race_distances_m : List ℚ := [5000, 10000, 21097.5, 42195]

/-- Qualification test of `_find_best_performances`: truthy distance and
elapsed time, distance within ±10% of the standard distance. -/
def qualifies_for (raceMeters : ℚ) (a : Activity) : Bool :=
  otruthy a.distance && otruthy a.elapsedTime &&
    decide (9/10 * raceMeters ≤ a.distance.getD 0) &&
    decide (a.distance.getD 0 ≤ 11/10 * raceMeters)

/-- Best (lowest elapsed time, earliest on ties) qualifying performance
for one standard distance, as `(distance, time)`. -/
def best_for (activities : List Activity) (raceMeters : ℚ) : Option (ℚ × ℚ) :=
  activities.foldl (fun best a =>
    if qualifies_for raceMeters a then
      let d := a.distance.getD 0
      let t := a.elapsedTime.getD 0
      match best with
      | none => some (d, t)
      | some (bd, bt) => if t < bt then some (d, t) else some (bd, bt)
    else best) none

/-- Source `VO2MaxEstimationAgent._find_best_performances`.  (The Python version
returns the dict's insertion order; this embedding lists the four standard
distances in `RACE_DISTANCES` order.  No settled claim depends on the
ordering: the weighted average below is order-insensitive.) -/
def find_best_performances (activities : List Activity) : List (ℚ × ℚ) :=
  race_distances_m.filterMap (best_for activities)

/-- Source `VO2MaxEstimationAgent._estimate_vo2max_from_race_time`: Daniels &
Gilbert VO2 cost at the race velocity, divided by the race-intensity
fraction for the distance band, clamped to `[20, 85]`.  `None` on a zero
time (the `ZeroDivisionError` branch). -/
def estimate_vo2max_from_race_time (distanceMeters timeSeconds : ℚ) : Option ℚ :=
  if timeSeconds = 0 then none
  else
    let velocityMPerMin := distanceMeters / timeSeconds * 60
    let vo2 := -4.60 + 0.182258 * velocityMPerMin + 0.000104 * velocityMPerMin ^ 2
    let distanceKm := distanceMeters / 1000
    let vo2max :=
      if distanceKm ≥ 40 then vo2 / 0.85
      else if distanceKm ≥ 20 then vo2 / 0.88
      else if distanceKm ≥ 10 then vo2 / 0.92
      else if distanceKm ≥ 5 then vo2 / 0.95
      else vo2 / 0.98
    some (clampVo2 vo2max)

/-- Source `VO2MaxEstimationAgent._estimate_vo2max_from_power`. -/
def estimate_vo2max_from_power (wattsPerKg : ℚ) : ℚ :=
  clampVo2 (12.63 * wattsPerKg * 0.96)

/-- Source `VO2MaxEstimationAgent._estimate_vo2max_from_heart_rate`: `15.3 *
(observed max HR / 65)`, clamped; `None` without any truthy max HR. -/
def estimate_vo2max_from_heart_rate (activities : List Activity) : Option ℚ :=
  match activities.filterMap (fun a =>
      if otruthy a.maxHeartRate then a.maxHeartRate else none) with
  | [] => none
  | h :: t => some (clampVo2 (15.3 * (t.foldl max h / 65)))

/-- Method-1 candidates of `estimate_vo2_max`: one race-performance
estimate per standard-distance best whose Daniels estimate succeeded,
each carrying weight 2 (`2.0 if "race" in method else 1.0`). -/
def race_candidates (activities : List Activity) : List (ℚ × ℚ) :=
  ((find_best_performances activities).filterMap (fun p =>
    estimate_vo2max_from_race_time p.1 p.2)).map (fun v => (v, 2))

/-- Method-2 candidate of `estimate_vo2_max`: the power estimate over the
mean `average_watts` of the power activities (mass assumed 70 kg by the
source), weight 1; absent without power activities. -/
def power_candidates (activities : List Activity) : List (ℚ × ℚ) :=
  if (activities.filter (fun a => otruthy a.averageWatts)).isEmpty then []
  else
    [(estimate_vo2max_from_power
        (((activities.filter (fun a => otruthy a.averageWatts)).map
            (fun a => a.averageWatts.getD 0)).sum
          / ((activities.filter (fun a => otruthy a.averageWatts)).length : ℚ)
          / 70), (1 : ℚ))]

/-- Method-3 candidate of `estimate_vo2_max`: the heart-rate estimate,
weight 1; absent without any truthy max heart rate. -/
def hr_candidates (activities : List Activity) : List (ℚ × ℚ) :=
  match estimate_vo2max_from_heart_rate activities with
  | none => []
  | some v => [(v, (1 : ℚ))]

/-- The candidate list of `estimate_vo2_max` paired with the per-method
weights. -/
def vo2_candidates (activities : List Activity) : List (ℚ × ℚ) :=
  race_candidates activities ++ power_candidates activities ++ hr_candidates activities

/-- Weighted average `sum(v * w for v, w in zip(...)) / sum(weights)`. -/
def weighted_average (l : List (ℚ × ℚ)) : ℚ :=
  (l.map (fun p => p.1 * p.2)).sum / (l.map Prod.snd).sum

/-- The `vo2_max` field of the `VO2MaxEstimate` returned by
`VO2MaxEstimationAgent.estimate_vo2_max`: the fallback `40.0` for an empty
activity list or when no method produced a candidate, otherwise the
weighted average of the clamped candidates rounded to one decimal. -/
def estimate_vo2_max_value (activities : List Activity) : ℚ :=
  if activities.isEmpty then 40
  else if (vo2_candidates activities).isEmpty then 40
  else round1 (weighted_average (vo2_candidates activities))

/-! ## Weather Context Agent (`weather_context_agent.py`) -/

inductive WeatherImpactLevel where
  | minimal | moderate | significant | severe
deriving DecidableEq, Repr

/-- One fetched `WeatherConditions` record (timestamp elided; no settled
claim reads it). -/
structure WeatherConditions where
  temperatureCelsius : ℚ
  humidityPercent : ℚ
  windSpeedKmh : ℚ
  precipitationMm : ℚ
  weatherCode : ℤ
deriving DecidableEq, Repr

/-- Source `WeatherContextAgent._calculate_heat_index`: identity below 80°F, else
the standard heat-index regression evaluated in Fahrenheit and converted
back to Celsius. -/
def calculate_heat_index (tempC humidity : ℚ) : ℚ :=
  let tempF := tempC * 9 / 5 + 32
  if tempF < 80 then tempC
  else
    let hi := -42.379 + 2.04901523 * tempF + 10.14333127 * humidity
      - 0.22475541 * tempF * humidity
      - 0.00683783 * tempF * tempF
      - 0.05481717 * humidity * humidity
      + 0.00122874 * tempF * tempF * humidity
      + 0.00085282 * tempF * humidity * humidity
      - 0.00000199 * tempF * tempF * humidity * humidity
    (hi - 32) * 5 / 9

/-- Source `WeatherContextAgent._estimate_pace_degradation`: additive seconds/mile
terms for temperature above 25°C, humidity above 70%, and heat index above
30°C, rounded to one decimal. -/
def estimate_pace_degradation (temperature humidity heatIndex : ℚ) : ℚ :=
  round1 ((if temperature > 25 then (temperature - 25) * 4 else 0)
    + (if humidity > 70 then (humidity - 70) * 0.5 else 0)
    + (if heatIndex > 30 then (heatIndex - 30) * 2 else 0))

/-- Source `WeatherContextAgent._determine_weather_impact`. -/
def determine_weather_impact (heatStressRuns totalRuns : ℕ) (avgTemp : ℚ) :
    WeatherImpactLevel :=
  if totalRuns = 0 then .minimal
  else if (heatStressRuns : ℚ) / (totalRuns : ℚ) > 0.5 ∨ avgTemp > 28 then .severe
  else if (heatStressRuns : ℚ) / (totalRuns : ℚ) > 0.3 ∨ avgTemp > 25 then .significant
  else if (heatStressRuns : ℚ) / (totalRuns : ℚ) > 0.15 ∨ avgTemp > 22 then .moderate
  else .minimal

/-- Source `WeatherContextAgent._assess_heat_acclimation`. -/
def assess_heat_acclimation (heatStressRuns totalRuns : ℕ) : String :=
  if totalRuns = 0 then "none"
  else if (heatStressRuns : ℚ) / (totalRuns : ℚ) > 0.4 ∧ heatStressRuns ≥ 8 then
    "well-acclimated"
  else if (heatStressRuns : ℚ) / (totalRuns : ℚ) > 0.15 ∧ heatStressRuns ≥ 4 then
    "developing"
  else "none"

/-- Source `WeatherImpactAnalysis` (prose recommendation and period fields elided). -/
structure WeatherImpactAnalysisResult where
  average_temperature : ℚ
  average_humidity : ℚ
  heat_stress_runs : ℕ
  ideal_condition_runs : ℕ
  weather_impact_score : WeatherImpactLevel
  pace_degradation_estimate : ℚ
  heat_acclimation_level : String
deriving DecidableEq, Repr

/-- Mean temperature of the fetched weather records. -/
def avg_temp (wd : List WeatherConditions) : ℚ :=
  (wd.map (fun w => w.temperatureCelsius)).sum / (wd.length : ℚ)

/-- Mean humidity of the fetched weather records. -/
def avg_humidity (wd : List WeatherConditions) : ℚ :=
  (wd.map (fun w => w.humidityPercent)).sum / (wd.length : ℚ)

/-- Count of heat-stress runs: temperature above 25°C or humidity above 70%. -/
def heat_stress_count (wd : List WeatherConditions) : ℕ :=
  wd.countP (fun w =>
    decide (w.temperatureCelsius > 25) || decide (w.humidityPercent > 70))

/-- Count of ideal-condition runs: temperature in [10, 20]°C. -/
def ideal_condition_count (wd : List WeatherConditions) : ℕ :=
  wd.countP (fun w =>
    decide (10 ≤ w.temperatureCelsius) && decide (w.temperatureCelsius ≤ 20))

/-- Body of `analyze_weather_impact` once a non-empty list of fetched
weather records is in hand (lines 308-361 of the source). -/
def analyze_weather_data (wd : List WeatherConditions) : WeatherImpactAnalysisResult :=
  let avgTemp := avg_temp wd
  let avgHumidity := avg_humidity wd
  let heatStressRuns := heat_stress_count wd
  let avgHeatIndex := calculate_heat_index avgTemp avgHumidity
  { average_temperature := round1 avgTemp
    average_humidity := round1 avgHumidity
    heat_stress_runs := heatStressRuns
    ideal_condition_runs := ideal_condition_count wd
    weather_impact_score := determine_weather_impact heatStressRuns wd.length avgTemp
    pace_degradation_estimate := estimate_pace_degradation avgTemp avgHumidity avgHeatIndex
    heat_acclimation_level := assess_heat_acclimation heatStressRuns wd.length }

/-- Source `WeatherContextAgent._create_fallback_analysis`: averages taken from the
truthy activity-embedded temperature/humidity fields (defaults 15.0 and
60.0), zero impact, acclimation level the out-of-enum string `"unknown"`. -/
def create_fallback_weather_analysis (activities : List Activity) :
    WeatherImpactAnalysisResult :=
  let temps := activities.filterMap (fun a =>
    if otruthy a.averageTemperature then a.averageTemperature else none)
  let hums := activities.filterMap (fun a =>
    if otruthy a.humidity then a.humidity else none)
  let avgTemp := if temps.isEmpty then 15 else temps.sum / (temps.length : ℚ)
  let avgHumidity := if hums.isEmpty then 60 else hums.sum / (hums.length : ℚ)
  { average_temperature := round1 avgTemp
    average_humidity := round1 avgHumidity
    heat_stress_runs := 0
    ideal_condition_runs := 0
    weather_impact_score := .minimal
    pace_degradation_estimate := 0
    heat_acclimation_level := "unknown" }

/-- Source `WeatherContextAgent.analyze_weather_impact`.  The per-activity
historical weather lookup (an external HTTP collaborator) is the `fetch`
oracle; a `none` models a failed or unparseable lookup.  Activities without
truthy start coordinates are filtered out; with none left, or with no
successful fetch among the first 30 dated candidates, the activity-embedded
fallback is returned. -/
def analyze_weather_impact (activities : List Activity)
    (fetch : Activity → Option WeatherConditions) : WeatherImpactAnalysisResult :=
  if (activities.filter (fun a =>
      otruthy a.startLatitude && otruthy a.startLongitude)).isEmpty then
    create_fallback_weather_analysis activities
  else if (((activities.filter (fun a =>
      otruthy a.startLatitude && otruthy a.startLongitude)).take 30).filterMap
        (fun a => if a.activityDate.isSome then fetch a else none)).isEmpty then
    create_fallback_weather_analysis activities
  else
    analyze_weather_data (((activities.filter (fun a =>
      otruthy a.startLatitude && otruthy a.startLongitude)).take 30).filterMap
        (fun a => if a.activityDate.isSome then fetch a else none))

/-! ## Workflow node pattern (`enhanced_runner_analysis_workflow.py`,
`runner_analysis_workflow.py`)

Every node has the shape `try: state[slot] = agent(...) ... except
Exception as e: state["errors"].append({"step": name, "error": str(e)});
state[slot] = {"error": str(e)}`, and the compiled LangGraph applies the
nodes in a topological order of the declared edges.  A stage's agent call
is an `Except String α`-valued function of the state it observes. -/

/-- Workflow state: per-stage result slots (keyed by stage name),
`completed_steps`, and the `errors` list of `{"step": ..., "error": ...}`
entries. -/
structure WFState (α : Type) where
  slots : List (String × Except String α)
  completed : List String
  errors : List (String × String)

/-- One workflow node: run the stage function; on success record the value
and mark the step completed, on an exception record the message in the
stage's slot and append `(name, message)` to `errors`.  The node itself
always returns normally. -/
def runNode {α : Type} (name : String) (fn : WFState α → Except String α)
    (s : WFState α) : WFState α :=
  match fn s with
  | Except.ok v =>
      { s with slots := s.slots ++ [(name, Except.ok v)],
               completed := s.completed ++ [name] }
  | Except.error m =>
      { s with slots := s.slots ++ [(name, Except.error m)],
               errors := s.errors ++ [(name, m)] }

/-- The compiled workflow: the nodes applied in topological order. -/
def runWorkflow {α : Type} (stages : List (String × (WFState α → Except String α)))
    (s : WFState α) : WFState α :=
  stages.foldl (fun st p => runNode p.1 p.2 st) s

/-- The `{"step": name, "error": message}` entry a failed slot contributes. -/
def failureEntry {α : Type} (p : String × Except String α) :
    Option (String × String) :=
  match p.2 with
  | Except.error m => some (p.1, m)
  | Except.ok _ => none

/-- The final report assembled by `_final_synthesis_node` /
`analyze_runner`: all accumulated slots, the completed steps, and the
stage errors. -/
structure FinalAnalysis (α : Type) where
  stageResults : List (String × Except String α)
  completedSteps : List String
  stageErrors : List (String × String)

/-- Source `final_synthesis` reduces the workflow state into the report. -/
def final_synthesis {α : Type} (s : WFState α) : FinalAnalysis α :=
  ⟨s.slots, s.completed, s.errors⟩

/-- Source `analyze_runner`: run the compiled workflow, return the final report
(the function is total: no stage exception escapes to the caller). -/
def analyze_runner {α : Type} (stages : List (String × (WFState α → Except String α)))
    (s : WFState α) : FinalAnalysis α :=
  final_synthesis (runWorkflow stages s)

/-! ## Riegel race-time prediction (`_predict_race_time_riegel`)

`T2 = T1 * (D2/D1) ** 1.06`, then `int(...)` (truncation toward zero).
The float power is modelled with the real power function. -/

/-- Python `int(x)` on a real: truncation toward zero. -/
noncomputable def pythonInt (x : ℝ) : ℤ :=
  if 0 ≤ x then ⌊x⌋ else -⌊-x⌋

/-- The real-valued Riegel extrapolation before truncation. -/
noncomputable def predicted_riegel_real (knownDistanceM knownTimeS targetDistanceM : ℝ) : ℝ :=
  knownTimeS * (targetDistanceM / knownDistanceM) ^ (1.06 : ℝ)

/-- Source `VO2MaxEstimationAgent._predict_race_time_riegel`: the Riegel
extrapolation truncated to a whole number of seconds. -/
noncomputable def predict_race_time_riegel (knownDistanceM knownTimeS targetDistanceM : ℝ) : ℤ :=
  pythonInt (predicted_riegel_real knownDistanceM knownTimeS targetDistanceM)

/-! ## Spec-worded definitions (for refinement claims only) -/

/-- Recovery-status bands as worded by the spec (§4.2, first match wins):
ACWR>1.8 → Overtrained; ACWR>1.5 and weeklyTSS>500 → Overreaching;
ACWR>1.3 or weeklyTSS>700 → Fatigued; ACWR<0.8 or weeklyTSS<200 →
WellRecovered; else Adequate. -/
def recovery_status_spec (acwr weeklyTss : ℚ) : RecoveryStatus :=
  if acwr > 1.8 then .overtrained
  else if acwr > 1.5 ∧ weeklyTss > 500 then .overreaching
  else if acwr > 1.3 ∨ weeklyTss > 700 then .fatigued
  else if acwr < 0.8 ∨ weeklyTss < 200 then .well_recovered
  else .adequate

/-- Per-activity TSS as worded by the spec (§4.2 and claim C6):
`movingHours * IF^2 * 100` rounded to one decimal, where `movingHours`
is the activity's moving time (`movingSeconds`) in hours. -/
def tss_spec_moving (a : Activity) (intensityFactor : ℚ) : ℚ :=
  round1 ((a.movingTime.getD 0) / 3600 * intensityFactor ^ 2 * 100)

/-- Per-activity TSS as the code computes it, worded over the sample's
fields: `elapsedSeconds / 3600 * IF^2 * 100` rounded to one decimal. -/
def tss_spec_elapsed (elapsedSeconds intensityFactor : ℚ) : ℚ :=
  round1 (elapsedSeconds / 3600 * intensityFactor ^ 2 * 100)

/-! ## Concrete sample inputs used by witnesses and counterexamples -/

/-- An activity whose moving time (1 h) differs from its elapsed time (2 h). -/
def sample_moving_gap : Activity :=
  { distance := some 10000, elapsedTime := some 7200, movingTime := some 3600,
    averageHeartRate := none, maxHeartRate := none, averageSpeed := none,
    averageWatts := none, activityDate := some 0, startLatitude := none,
    startLongitude := none, averageTemperature := none, humidity := none }

/-- A single one-hour run dated day 0, no heart-rate data (default IF 0.70). -/
def sample_run_day0 : Activity :=
  { distance := some 8000, elapsedTime := some 3600, movingTime := some 3600,
    averageHeartRate := none, maxHeartRate := none, averageSpeed := none,
    averageWatts := none, activityDate := some 0, startLatitude := none,
    startLongitude := none, averageTemperature := none, humidity := none }

/-- An activity with embedded weather fields but no start coordinates. -/
def sample_no_location : Activity :=
  { distance := some 5000, elapsedTime := some 1800, movingTime := some 1800,
    averageHeartRate := none, maxHeartRate := none, averageSpeed := none,
    averageWatts := none, activityDate := some 0, startLatitude := none,
    startLongitude := none, averageTemperature := some 30, humidity := some 80 }

/-- One fetched weather record at 30°C / 80% humidity. -/
def sample_hot_weather : WeatherConditions :=
  { temperatureCelsius := 30, humidityPercent := 80, windSpeedKmh := 0,
    precipitationMm := 0, weatherCode := 0 }

/-! ## Supporting lemmas -/

theorem ratFloor_eq_floor (q : ℚ) : ratFloor q = ⌊q⌋ := by
  rw [Rat.floor_def]
  rfl

theorem roundHalfEven_sub_le (q : ℚ) :
    |(roundHalfEven q : ℚ) - q| ≤ 1/2 := by
  unfold roundHalfEven
  simp only [ratFloor_eq_floor]
  have h0 : (0 : ℚ) ≤ q - ⌊q⌋ := by
    have := Int.floor_le q; linarith
  have h1 : q - ⌊q⌋ < 1 := by
    have := Int.lt_floor_add_one q; linarith
  by_cases hlt : q - ⌊q⌋ < 1/2
  · simp only [hlt, if_true]
    rw [abs_le]; constructor <;> linarith
  · by_cases hgt : q - ⌊q⌋ > 1/2
    · simp only [hlt, hgt, if_false, if_true]
      rw [abs_le]; push_cast; constructor <;> linarith
    · simp only [hlt, hgt, if_false]
      by_cases hev : (⌊q⌋ : ℤ) % 2 = 0
      · simp only [hev, if_true]
        rw [abs_le]; constructor <;> linarith
      · simp only [hev, if_false]
        rw [abs_le]; push_cast; constructor <;> linarith

/-- Round-half-even fixes whole numbers. -/
theorem roundHalfEven_intCast (k : ℤ) : roundHalfEven (k : ℚ) = k := by
  unfold roundHalfEven
  simp only [ratFloor_eq_floor, Int.floor_intCast]
  norm_num

/-- Rounding a whole number to one decimal returns it unchanged. -/
theorem round1_intCast (k : ℤ) : round1 ((k : ℤ) : ℚ) = (k : ℚ) := by
  unfold round1
  rw [show ((k : ℚ) * 10) = ((k * 10 : ℤ) : ℚ) by push_cast; ring,
    roundHalfEven_intCast]
  push_cast
  ring

/-- Rounding a whole number to two decimals returns it unchanged. -/
theorem round2_intCast (k : ℤ) : round2 ((k : ℤ) : ℚ) = (k : ℚ) := by
  unfold round2
  rw [show ((k : ℚ) * 100) = ((k * 100 : ℤ) : ℚ) by push_cast; ring,
    roundHalfEven_intCast]
  push_cast
  ring

/-- Rounding to one decimal moves a rational by at most 1/20. -/
theorem round1_sub_le (q : ℚ) : |round1 q - q| ≤ 1/20 := by
  unfold round1
  have h := roundHalfEven_sub_le (q * 10)
  rw [abs_le] at h ⊢
  constructor
  · linarith [h.1]
  · linarith [h.2]

/-- A whole-number lower bound survives rounding to one decimal. -/
theorem intCast_le_round1 (k : ℤ) (q : ℚ) (h : (k : ℚ) ≤ q) :
    (k : ℚ) ≤ round1 q := by
  have hb := roundHalfEven_sub_le (q * 10)
  rw [abs_le] at hb
  have h2 : ((10 * k - 1 : ℤ) : ℚ) < (roundHalfEven (q * 10) : ℚ) := by
    push_cast
    linarith [hb.1]
  have h3 : 10 * k - 1 < roundHalfEven (q * 10) := by exact_mod_cast h2
  have h4 : k * 10 ≤ roundHalfEven (q * 10) := by omega
  unfold round1
  rw [le_div_iff₀ (by norm_num : (0:ℚ) < 10)]
  exact_mod_cast h4

/-- A whole-number upper bound survives rounding to one decimal. -/
theorem round1_le_intCast (k : ℤ) (q : ℚ) (h : q ≤ (k : ℚ)) :
    round1 q ≤ (k : ℚ) := by
  have hb := roundHalfEven_sub_le (q * 10)
  rw [abs_le] at hb
  have h2 : (roundHalfEven (q * 10) : ℚ) < ((10 * k + 1 : ℤ) : ℚ) := by
    push_cast
    linarith [hb.2]
  have h3 : roundHalfEven (q * 10) < 10 * k + 1 := by exact_mod_cast h2
  have h4 : roundHalfEven (q * 10) ≤ k * 10 := by omega
  unfold round1
  rw [div_le_iff₀ (by norm_num : (0:ℚ) < 10)]
  exact_mod_cast h4

/-- The candidate clamp lands in `[20, 85]`. -/
theorem clampVo2_bounds (x : ℚ) : 20 ≤ clampVo2 x ∧ clampVo2 x ≤ 85 :=
  ⟨le_max_left _ _, max_le (by norm_num) (min_le_left _ _)⟩

/-- A successful race-time estimate is a clamped value. -/
theorem race_estimate_clamped (d t v : ℚ)
    (h : estimate_vo2max_from_race_time d t = some v) : ∃ x, v = clampVo2 x := by
  unfold estimate_vo2max_from_race_time at h
  split at h
  · exact absurd h (by simp)
  · exact ⟨_, (Option.some.inj h).symm⟩

/-- A successful heart-rate estimate is a clamped value. -/
theorem hr_estimate_clamped (activities : List Activity) (v : ℚ)
    (h : estimate_vo2max_from_heart_rate activities = some v) :
    ∃ x, v = clampVo2 x := by
  unfold estimate_vo2max_from_heart_rate at h
  split at h
  · exact absurd h (by simp)
  · exact ⟨_, (Option.some.inj h).symm⟩

/-- Every VO2max candidate value lies in `[20, 85]` and carries a positive
weight. -/
theorem vo2_candidates_bounds (activities : List Activity) :
    ∀ p ∈ vo2_candidates activities, 20 ≤ p.1 ∧ p.1 ≤ 85 ∧ 0 < p.2 := by
  intro p hp
  unfold vo2_candidates at hp
  rw [List.append_assoc, List.mem_append, List.mem_append] at hp
  rcases hp with hp | hp | hp
  · rcases List.mem_map.mp hp with ⟨v, hv, rfl⟩
    rcases List.mem_filterMap.mp hv with ⟨q, _, hsome⟩
    obtain ⟨x, rfl⟩ := race_estimate_clamped q.1 q.2 v hsome
    exact ⟨(clampVo2_bounds x).1, (clampVo2_bounds x).2, by norm_num⟩
  · unfold power_candidates at hp
    split at hp
    · exact absurd hp (by simp)
    · rw [List.mem_singleton] at hp
      subst hp
      exact ⟨(clampVo2_bounds _).1, (clampVo2_bounds _).2, by norm_num⟩
  · unfold hr_candidates at hp
    split at hp
    · exact absurd hp (by simp)
    · rename_i v hv
      rw [List.mem_singleton] at hp
      subst hp
      obtain ⟨x, rfl⟩ := hr_estimate_clamped activities v hv
      exact ⟨(clampVo2_bounds x).1, (clampVo2_bounds x).2, by norm_num⟩

theorem weighted_sums_bounded (l : List (ℚ × ℚ))
    (h : ∀ p ∈ l, 20 ≤ p.1 ∧ p.1 ≤ 85 ∧ 0 < p.2) :
    20 * (l.map Prod.snd).sum ≤ (l.map (fun p => p.1 * p.2)).sum ∧
    (l.map (fun p => p.1 * p.2)).sum ≤ 85 * (l.map Prod.snd).sum := by
  induction l with
  | nil => simp
  | cons p t ih =>
    obtain ⟨h1, h2, h3⟩ := h p (List.mem_cons_self p t)
    obtain ⟨ih1, ih2⟩ := ih (fun q hq => h q (List.mem_cons_of_mem p hq))
    simp only [List.map_cons, List.sum_cons]
    constructor <;> nlinarith

/-- A weighted average of values in `[20, 85]` with positive weights lies
in `[20, 85]`. -/
theorem weighted_average_mem (l : List (ℚ × ℚ)) (hne : l ≠ [])
    (h : ∀ p ∈ l, 20 ≤ p.1 ∧ p.1 ≤ 85 ∧ 0 < p.2) :
    20 ≤ weighted_average l ∧ weighted_average l ≤ 85 := by
  have hw : 0 < (l.map Prod.snd).sum := by
    apply List.sum_pos
    · intro x hx
      rcases List.mem_map.mp hx with ⟨q, hq, rfl⟩
      exact (h q hq).2.2
    · simp only [ne_eq, List.map_eq_nil_iff]
      exact hne
  obtain ⟨hb1, hb2⟩ := weighted_sums_bounded l h
  unfold weighted_average
  constructor
  · rw [le_div_iff₀ hw]; linarith
  · rw [div_le_iff₀ hw]; linarith

/-! ## Claims -/

/-- C3: for every activity list — including the empty list and extreme
inputs such as a 1-second 1 km activity — the `vo2_max` value of the
estimate returned by `estimate_vo2_max` lies in the closed interval
`[20, 85]`. -/
theorem C3_vo2max_always_bounded (activities : List Activity) :
    20 ≤ estimate_vo2_max_value activities ∧
    estimate_vo2_max_value activities ≤ 85 := by
  unfold estimate_vo2_max_value
  split
  · norm_num
  · split
    · norm_num
    · rename_i hne2
      have hne : vo2_candidates activities ≠ [] := by
        simpa [List.isEmpty_iff] using hne2
      obtain ⟨hlo, hhi⟩ :=
        weighted_average_mem _ hne (vo2_candidates_bounds activities)
      constructor
      · have h := intCast_le_round1 20 (weighted_average (vo2_candidates activities))
          (by exact_mod_cast hlo)
        exact_mod_cast h
      · have h := round1_le_intCast 85 (weighted_average (vo2_candidates activities))
          (by exact_mod_cast hhi)
        exact_mod_cast h

/-- C4: whenever the chronic (28-day) load is zero the computed ACWR is
zero, and the division `acute / chronic` happens only under the guard
`chronic ≠ 0`. -/
theorem C4_acwr_zero_divisor_guard (acuteLoad chronicLoad : ℚ) :
    (chronicLoad = 0 → calculate_acwr acuteLoad chronicLoad = 0) ∧
    (chronicLoad ≠ 0 →
      calculate_acwr acuteLoad chronicLoad = round2 (acuteLoad / chronicLoad)) := by
  constructor
  · intro h
    simp [calculate_acwr, h]
  · intro h
    simp [calculate_acwr, h]

/-- Witness for C4 at acute load 37, chronic load 0. -/
theorem C4_acwr_zero_divisor_guard_witness : calculate_acwr 37 0 = 0 :=
  (C4_acwr_zero_divisor_guard 37 0).1 rfl

/-- C5: any ACWR strictly above 1.8 yields `overtrained` regardless of the
weekly TSS, and the whole determination agrees with the spec's
first-match-wins band order. -/
theorem C5_recovery_status_precedence (acwr weeklyTss : ℚ) (recentDays : ℕ) :
    (1.8 < acwr →
      determine_recovery_status acwr weeklyTss recentDays = .overtrained) ∧
    determine_recovery_status acwr weeklyTss recentDays =
      recovery_status_spec acwr weeklyTss := by
  constructor
  · intro h
    simp [determine_recovery_status, h]
  · rfl

/-- Witness for C5 at ACWR 1.9, weekly TSS 0. -/
theorem C5_recovery_status_precedence_witness :
    determine_recovery_status 1.9 0 7 = .overtrained :=
  (C5_recovery_status_precedence 1.9 0 7).1 (by norm_num)

/-- C6 counterexample: on an activity with elapsed time 7200 s but moving
time 3600 s, the code's TSS (from `elapsed_time`) is 98.0 while the
claimed `movingHours * IF^2 * 100` is 49.0. -/
theorem C6_tss_moving_time_counterexample :
    calculate_tss sample_moving_gap 0.7 = 98 ∧
    tss_spec_moving sample_moving_gap 0.7 = 49 ∧
    calculate_tss sample_moving_gap 0.7 ≠ tss_spec_moving sample_moving_gap 0.7 := by
  have h1 : calculate_tss sample_moving_gap 0.7 = 98 := by
    unfold calculate_tss
    rw [show (sample_moving_gap.elapsedTime.getD 0) = 7200 from rfl,
      show ((7200 : ℚ) / 3600 * 0.7 ^ 2 * 100) = ((98 : ℤ) : ℚ) by norm_num,
      round1_intCast]
    norm_num
  have h2 : tss_spec_moving sample_moving_gap 0.7 = 49 := by
    unfold tss_spec_moving
    rw [show (sample_moving_gap.movingTime.getD 0) = 3600 from rfl,
      show ((3600 : ℚ) / 3600 * 0.7 ^ 2 * 100) = ((49 : ℤ) : ℚ) by norm_num,
      round1_intCast]
    norm_num
  refine ⟨h1, h2, ?_⟩
  rw [h1, h2]
  norm_num

/-- C6 (amended): every activity's TSS equals
`elapsedSeconds / 3600 * IF^2 * 100` rounded to one decimal — the code
uses the activity's elapsed time, not its moving time. -/
theorem C6_tss_formula_elapsed (a : Activity) (intensityFactor : ℚ) :
    calculate_tss a intensityFactor =
      tss_spec_elapsed (a.elapsedTime.getD 0) intensityFactor := rfl

/-- C7: the empty activity list returns the documented fallback (no
exception): zero acute, chronic, ACWR, weekly TSS and volume, recovery
status well-recovered and injury risk low. -/
theorem C7_empty_activity_fallback (now : ℚ) :
    (analyze_training_load [] now).acute_load = 0 ∧
    (analyze_training_load [] now).chronic_load = 0 ∧
    (analyze_training_load [] now).acwr = 0 ∧
    (analyze_training_load [] now).weekly_tss = 0 ∧
    (analyze_training_load [] now).total_volume_km = 0 ∧
    (analyze_training_load [] now).recovery_status = .well_recovered ∧
    (analyze_training_load [] now).injury_risk_level = "low" :=
  ⟨rfl, rfl, rfl, rfl, rfl, rfl, rfl⟩

/-- C1: for every stage list and initial state, the run completes with
exactly one recorded result per declared stage (in order), and the final
report's error list extends the initial one by precisely the
`(stage, message)` entries of the stages whose functions raised — no
exception propagates and every remaining stage still executes. -/
theorem C1_stage_failure_isolation {α : Type}
    (stages : List (String × (WFState α → Except String α))) (s : WFState α) :
    ∃ results : List (String × Except String α),
      results.map Prod.fst = stages.map Prod.fst ∧
      (runWorkflow stages s).slots = s.slots ++ results ∧
      (analyze_runner stages s).stageErrors =
        s.errors ++ results.filterMap failureEntry := by
  induction stages generalizing s with
  | nil =>
    exact ⟨[], rfl, (List.append_nil _).symm, (List.append_nil _).symm⟩
  | cons stage rest ih =>
    have hrun : runWorkflow (stage :: rest) s =
        runWorkflow rest (runNode stage.1 stage.2 s) := rfl
    obtain ⟨res, h1, h2, h3⟩ := ih (runNode stage.1 stage.2 s)
    cases hf : stage.2 s with
    | ok v =>
      have hnode : runNode stage.1 stage.2 s =
          { s with slots := s.slots ++ [(stage.1, Except.ok v)],
                   completed := s.completed ++ [stage.1] } := by
        unfold runNode
        rw [hf]
      refine ⟨(stage.1, Except.ok v) :: res, ?_, ?_, ?_⟩
      · simp [h1]
      · rw [hrun, h2, hnode]
        simp
      · show (runWorkflow (stage :: rest) s).errors = _
        rw [hrun]
        have hpr : (analyze_runner rest (runNode stage.1 stage.2 s)).stageErrors =
            (runWorkflow rest (runNode stage.1 stage.2 s)).errors := rfl
        rw [← hpr, h3, hnode]
        simp [failureEntry]
    | error m =>
      have hnode : runNode stage.1 stage.2 s =
          { s with slots := s.slots ++ [(stage.1, Except.error m)],
                   errors := s.errors ++ [(stage.1, m)] } := by
        unfold runNode
        rw [hf]
      refine ⟨(stage.1, Except.error m) :: res, ?_, ?_, ?_⟩
      · simp [h1]
      · rw [hrun, h2, hnode]
        simp
      · show (runWorkflow (stage :: rest) s).errors = _
        rw [hrun]
        have hpr : (analyze_runner rest (runNode stage.1 stage.2 s)).stageErrors =
            (runWorkflow rest (runNode stage.1 stage.2 s)).errors := rfl
        rw [← hpr, h3, hnode]
        simp [failureEntry]

/-- C2 counterexample: the reference date is `datetime.now()`, sampled
inside the run rather than supplied; two runs over the identical activity
list at wall-clock days 0 and 100 return different training-load metrics
(acute load 49.0 versus 0.0). -/
theorem C2_hidden_time_counterexample :
    (analyze_training_load [sample_run_day0] 0).acute_load = 49 ∧
    (analyze_training_load [sample_run_day0] 100).acute_load = 0 ∧
    analyze_training_load [sample_run_day0] 0 ≠
      analyze_training_load [sample_run_day0] 100 := by
  have hif : calculate_intensity_factor sample_run_day0 none = 0.7 := by
    unfold calculate_intensity_factor
    norm_num [sample_run_day0, otruthy]
  have htss : calculate_tss sample_run_day0 0.7 = 49 := by
    unfold calculate_tss
    rw [show (sample_run_day0.elapsedTime.getD 0) = 3600 from rfl,
      show ((3600 : ℚ) / 3600 * 0.7 ^ 2 * 100) = ((49 : ℤ) : ℚ) by norm_num,
      round1_intCast]
    norm_num
  have hacute0 : (analyze_training_load [sample_run_day0] 0).acute_load = 49 := by
    show calculate_load_by_period [sample_run_day0] 7 0 = 49
    unfold calculate_load_by_period
    rw [show ([sample_run_day0].filter (fun a =>
        match a.activityDate with
        | some d => decide (d ≥ (0 : ℚ) - 7)
        | none => false)) = [sample_run_day0] by
      simp [sample_run_day0]]
    simp only [List.map_cons, List.map_nil, List.sum_cons, List.sum_nil, add_zero]
    rw [hif, htss, show ((49 : ℚ)) = ((49 : ℤ) : ℚ) by norm_num, round1_intCast]
  have hacute100 : (analyze_training_load [sample_run_day0] 100).acute_load = 0 := by
    show calculate_load_by_period [sample_run_day0] 7 100 = 0
    unfold calculate_load_by_period
    rw [show ([sample_run_day0].filter (fun a =>
        match a.activityDate with
        | some d => decide (d ≥ (100 : ℚ) - 7)
        | none => false)) = [] by
      simp [sample_run_day0]
      norm_num]
    simp only [List.map_nil, List.sum_nil]
    rw [show ((0 : ℚ)) = ((0 : ℤ) : ℚ) by norm_num, round1_intCast]
  refine ⟨hacute0, hacute100, fun heq => ?_⟩
  rw [heq, hacute100] at hacute0
  norm_num at hacute0

/-- C2 (amended): the numeric pipeline results are deterministic in the
supplied data together with the internally sampled reference time — runs
sharing the activity list, the sampled `datetime.now()` value and the
fetched weather records return identical training-load metrics, VO2max
value and weather analysis.  The as-of timestamp is not a caller-supplied
input, so runs at different wall-clock times may differ. -/
theorem C2_deterministic_given_reference_time (activities : List Activity)
    (t t' : ℚ) (wd : List WeatherConditions) (h : t = t') :
    analyze_training_load activities t = analyze_training_load activities t' ∧
    estimate_vo2_max_value activities = estimate_vo2_max_value activities ∧
    analyze_weather_data wd = analyze_weather_data wd := by
  subst h
  exact ⟨rfl, rfl, rfl⟩

/-- Witness for C2 at the singleton activity list and reference day 0. -/
theorem C2_deterministic_given_reference_time_witness :
    (0 : ℚ) = 0 ∧
    (analyze_training_load [sample_run_day0] 0 =
        analyze_training_load [sample_run_day0] 0 ∧
      estimate_vo2_max_value [sample_run_day0] =
        estimate_vo2_max_value [sample_run_day0] ∧
      analyze_weather_data [sample_hot_weather] =
        analyze_weather_data [sample_hot_weather]) :=
  ⟨rfl, C2_deterministic_given_reference_time [sample_run_day0] 0 0
    [sample_hot_weather] rfl⟩

/-- C9: any non-empty analyzed weather set averaging 30°C and 80%
humidity is reported as severe impact with a strictly positive pace
degradation. -/
theorem C9_hot_humid_severe (wd : List WeatherConditions) (hne : wd ≠ [])
    (ht : avg_temp wd = 30) (hh : avg_humidity wd = 80) :
    (analyze_weather_data wd).weather_impact_score = .severe ∧
    0 < (analyze_weather_data wd).pace_degradation_estimate := by
  have hn : wd.length ≠ 0 := fun h => hne (List.length_eq_zero.mp h)
  constructor
  · show determine_weather_impact (heat_stress_count wd) wd.length (avg_temp wd) =
      .severe
    rw [ht]
    unfold determine_weather_impact
    rw [if_neg hn, if_pos (Or.inr (by norm_num : (30 : ℚ) > 28))]
  · show 0 < estimate_pace_degradation (avg_temp wd) (avg_humidity wd)
      (calculate_heat_index (avg_temp wd) (avg_humidity wd))
    rw [ht, hh]
    unfold estimate_pace_degradation
    rw [if_pos (by norm_num : (30 : ℚ) > 25), if_pos (by norm_num : (80 : ℚ) > 70)]
    have h3 : (0 : ℚ) ≤
        (if calculate_heat_index 30 80 > 30 then (calculate_heat_index 30 80 - 30) * 2
          else 0) := by
      split
      · rename_i hgt
        linarith
      · exact le_refl 0
    have h25 : ((25 : ℤ) : ℚ) ≤ ((30 : ℚ) - 25) * 4 + ((80 : ℚ) - 70) * 0.5 +
        (if calculate_heat_index 30 80 > 30 then (calculate_heat_index 30 80 - 30) * 2
          else 0) := by
      push_cast
      linarith
    have := intCast_le_round1 25 _ h25
    linarith [this]

/-- Witness for C9 at the single fetched record 30°C / 80% humidity. -/
theorem C9_hot_humid_severe_witness :
    [sample_hot_weather] ≠ [] ∧
    avg_temp [sample_hot_weather] = 30 ∧
    avg_humidity [sample_hot_weather] = 80 ∧
    ((analyze_weather_data [sample_hot_weather]).weather_impact_score = .severe ∧
      0 < (analyze_weather_data [sample_hot_weather]).pace_degradation_estimate) := by
  have h1 : [sample_hot_weather] ≠ [] := by simp
  have h2 : avg_temp [sample_hot_weather] = 30 := by
    norm_num [avg_temp, sample_hot_weather]
  have h3 : avg_humidity [sample_hot_weather] = 80 := by
    norm_num [avg_humidity, sample_hot_weather]
  exact ⟨h1, h2, h3, C9_hot_humid_severe [sample_hot_weather] h1 h2 h3⟩

/-- C10: when no activity carries both start coordinates, the weather
analysis returns the activity-embedded fallback: impact minimal, zero
pace degradation, zero heat-stress runs, and the out-of-enum acclimation
level `"unknown"`, whatever temperatures and humidities the activities
embed (those only set the reported averages). -/
theorem C10_no_location_fallback (activities : List Activity)
    (fetch : Activity → Option WeatherConditions)
    (h : ∀ a ∈ activities, ¬(a.startLatitude.isSome ∧ a.startLongitude.isSome)) :
    analyze_weather_impact activities fetch =
      create_fallback_weather_analysis activities ∧
    (analyze_weather_impact activities fetch).weather_impact_score = .minimal ∧
    (analyze_weather_impact activities fetch).pace_degradation_estimate = 0 ∧
    (analyze_weather_impact activities fetch).heat_stress_runs = 0 ∧
    (analyze_weather_impact activities fetch).heat_acclimation_level = "unknown" := by
  have hfalse : ∀ a ∈ activities,
      (otruthy a.startLatitude && otruthy a.startLongitude) = false := by
    intro a ha
    cases hla : a.startLatitude with
    | none => simp [otruthy]
    | some v =>
      cases hlo : a.startLongitude with
      | none => simp [otruthy]
      | some w =>
        exact absurd ⟨by rw [hla]; rfl, by rw [hlo]; rfl⟩ (h a ha)
  have hfilter : activities.filter (fun a =>
      otruthy a.startLatitude && otruthy a.startLongitude) = [] := by
    rw [List.filter_eq_nil_iff]
    intro a ha
    simp [hfalse a ha]
  have hmain : analyze_weather_impact activities fetch =
      create_fallback_weather_analysis activities := by
    unfold analyze_weather_impact
    rw [hfilter]
    rfl
  refine ⟨hmain, ?_, ?_, ?_, ?_⟩ <;> rw [hmain] <;> rfl

/-- Witness for C10 at a single activity with embedded 30°C / 80% weather
but no coordinates, under a fetch oracle that always fails. -/
theorem C10_no_location_fallback_witness :
    (∀ a ∈ [sample_no_location],
      ¬(a.startLatitude.isSome ∧ a.startLongitude.isSome)) ∧
    (analyze_weather_impact [sample_no_location] (fun _ => none) =
        create_fallback_weather_analysis [sample_no_location] ∧
      (analyze_weather_impact [sample_no_location]
          (fun _ => none)).weather_impact_score = .minimal ∧
      (analyze_weather_impact [sample_no_location]
          (fun _ => none)).pace_degradation_estimate = 0 ∧
      (analyze_weather_impact [sample_no_location]
          (fun _ => none)).heat_stress_runs = 0 ∧
      (analyze_weather_impact [sample_no_location]
          (fun _ => none)).heat_acclimation_level = "unknown") := by
  have h : ∀ a ∈ [sample_no_location],
      ¬(a.startLatitude.isSome ∧ a.startLongitude.isSome) := by
    intro a ha
    rw [List.mem_singleton] at ha
    subst ha
    simp [sample_no_location]
  exact ⟨h, C10_no_location_fallback [sample_no_location] (fun _ => none) h⟩

/-- C8 counterexample: the returned prediction truncates to whole seconds,
so strict monotonicity fails — from the known performance (1, 1), the
strictly larger target distance `(101/100)^50` receives the same integer
prediction as target distance 1 (both equal 1 second). -/
theorem C8_riegel_truncation_counterexample :
    (1 : ℝ) < ((101 / 100 : ℝ)) ^ (50 : ℕ) ∧
    predict_race_time_riegel 1 1 (((101 / 100 : ℝ)) ^ (50 : ℕ)) = 1 ∧
    predict_race_time_riegel 1 1 1 = 1 := by
  have hgt : (1 : ℝ) < ((101 / 100 : ℝ)) ^ (50 : ℕ) :=
    one_lt_pow₀ (by norm_num) (by norm_num)
  refine ⟨hgt, ?_, ?_⟩
  · have hval : predicted_riegel_real 1 1 (((101 / 100 : ℝ)) ^ (50 : ℕ)) =
        ((101 / 100 : ℝ)) ^ (53 : ℕ) := by
      unfold predicted_riegel_real
      rw [one_mul, div_one]
      rw [show ((101 / 100 : ℝ)) ^ (50 : ℕ) = ((101 / 100 : ℝ)) ^ ((50 : ℕ) : ℝ) from
        (Real.rpow_natCast _ 50).symm]
      rw [← Real.rpow_mul (by norm_num : (0 : ℝ) ≤ 101 / 100)]
      rw [show ((50 : ℕ) : ℝ) * (1.06 : ℝ) = ((53 : ℕ) : ℝ) by norm_num]
      exact Real.rpow_natCast _ 53
    have hub : ((101 / 100 : ℝ)) ^ (53 : ℕ) < 2 := by
      rw [div_pow]
      rw [div_lt_iff₀ (by positivity)]
      norm_num
    have hlb : (1 : ℝ) ≤ ((101 / 100 : ℝ)) ^ (53 : ℕ) :=
      one_le_pow₀ (by norm_num)
    unfold predict_race_time_riegel pythonInt
    rw [hval, if_pos (by linarith)]
    rw [Int.floor_eq_iff]
    constructor
    · push_cast
      linarith
    · push_cast
      linarith
  · have hval : predicted_riegel_real 1 1 1 = 1 := by
      unfold predicted_riegel_real
      rw [one_mul, div_one, Real.one_rpow]
    unfold predict_race_time_riegel pythonInt
    rw [hval, if_pos (by norm_num)]
    exact Int.floor_one

/-- C8 (amended): for a fixed known performance with positive distance and
time, the real-valued Riegel prediction `T1 * (D2/D1)^1.06` is strictly
increasing in the target distance; the integer prediction returned after
`int(...)` truncation is nondecreasing (and only nondecreasing — see the
counterexample). -/
theorem C8_riegel_monotone (d1 t1 d2 d2' : ℝ) (hd1 : 0 < d1) (ht1 : 0 < t1)
    (hd2 : 0 < d2) (hlt : d2 < d2') :
    predicted_riegel_real d1 t1 d2 < predicted_riegel_real d1 t1 d2' ∧
    predict_race_time_riegel d1 t1 d2 ≤ predict_race_time_riegel d1 t1 d2' := by
  have hratio : d2 / d1 < d2' / d1 := by
    exact div_lt_div_of_pos_right hlt hd1
  have h0 : (0 : ℝ) ≤ d2 / d1 := le_of_lt (div_pos hd2 hd1)
  have hpow : (d2 / d1) ^ (1.06 : ℝ) < (d2' / d1) ^ (1.06 : ℝ) :=
    Real.rpow_lt_rpow h0 hratio (by norm_num)
  have hreal : predicted_riegel_real d1 t1 d2 < predicted_riegel_real d1 t1 d2' := by
    unfold predicted_riegel_real
    exact mul_lt_mul_of_pos_left hpow ht1
  refine ⟨hreal, ?_⟩
  have hx : (0 : ℝ) ≤ predicted_riegel_real d1 t1 d2 := by
    unfold predicted_riegel_real
    exact mul_nonneg (le_of_lt ht1) (Real.rpow_nonneg h0 _)
  have hy : (0 : ℝ) ≤ predicted_riegel_real d1 t1 d2' := le_trans hx (le_of_lt hreal)
  unfold predict_race_time_riegel pythonInt
  rw [if_pos hx, if_pos hy]
  exact Int.floor_le_floor (le_of_lt hreal)

/-- Witness for C8 at known performance (1, 1) and targets 1 < 2. -/
theorem C8_riegel_monotone_witness :
    (0 : ℝ) < 1 ∧ (1 : ℝ) < 2 ∧
    (predicted_riegel_real 1 1 1 < predicted_riegel_real 1 1 2 ∧
      predict_race_time_riegel 1 1 1 ≤ predict_race_time_riegel 1 1 2) :=
  ⟨by norm_num, by norm_num,
    C8_riegel_monotone 1 1 1 2 (by norm_num) (by norm_num) (by norm_num) (by norm_num)⟩

end Runaway
